import Mathlib

set_option autoImplicit false

/-! Shallow embedding of the ATS data-management core: the field registry
`State` (src/state/State.cc) and the weakly-coupled multi-physics controller
(src/pks/mpc/WeakMPC.cc).  Machine reals are modelled as rationals,
`Teuchos::ParameterList` as an association list of fully-spelled keys, and an
`Epetra` buffer as a list of per-entity rows (one row of `num_dofs` entries
per mesh entity).  Parts of the `Field` class (Field.cc is not among the
sources; only its call sites in State.cc are) are modelled from the spec and
carry a doc comment saying so. -/

namespace ATS

/-- Association-list lookup, modelling `std::map::find` /
`Teuchos::ParameterList::get` on string keys. -/
def alookup {α : Type} : List (String × α) → String → Option α
  | [], _ => none
  | p :: rest, k => if p.1 = k then some p.2 else alookup rest k

/-- Mesh entity kinds a field can live on (the `FieldLocation` enum). -/
inductive FieldLocation : Type where
  | cell
  | face
  | node
deriving DecidableEq, Repr

/-- Opaque mesh collaborator: for each entity kind, the list of mesh-block ids
of its entities (so the entity count is the list's length). -/
structure Mesh : Type where
  cell_block : List Nat
  face_block : List Nat
  node_block : List Nat
deriving DecidableEq, Repr

def Mesh.entityBlocks (m : Mesh) : FieldLocation → List Nat
  | .cell => m.cell_block
  | .face => m.face_block
  | .node => m.node_block

/-- One field of the registry: a named buffer over the mesh entities of one
location, with an owner, per-dof subfield names and an initialized latch.
`entity_blocks` records the mesh-block id of each entity (fixed at creation
from the mesh), `data` one row of `num_dofs` values per entity. -/
structure Field : Type where
  fieldname : String
  location : FieldLocation
  owner : String
  num_dofs : Nat
  subfield_names : List String
  initialized : Bool
  entity_blocks : List Nat
  data : List (List Rat)
deriving DecidableEq, Repr

instance : Inhabited Field :=
  ⟨{ fieldname := ""
     location := .cell
     owner := ""
     num_dofs := 0
     subfield_names := []
     initialized := false
     entity_blocks := []
     data := [] }⟩

/-- Modelled from the spec: the `Field` constructor
`Field(fieldname, location, mesh_maps, owner, num_dofs)` (Field.cc is not in
the sources).  Per spec section 3, the buffer is sized
(number of entities at `location`) times `num_dofs`; it starts zero-filled,
not initialized, with no subfield names. -/
def Field.create (fieldname : String) (location : FieldLocation) (mesh : Mesh)
    (owner : String) (num_dofs : Nat) : Field :=
  let blocks := mesh.entityBlocks location
  { fieldname := fieldname
    location := location
    owner := owner
    num_dofs := num_dofs
    subfield_names := []
    initialized := false
    entity_blocks := blocks
    data := blocks.map (fun _ => List.replicate num_dofs 0) }

def Field.set_owner (f : Field) (owner : String) : Field :=
  { f with owner := owner }

def Field.set_initialized (f : Field) : Field :=
  { f with initialized := true }

def Field.set_subfield_names (f : Field) (names : List String) : Field :=
  { f with subfield_names := names }

/-- Modelled from the spec: `Field::set_data(requester, u)` (Field.cc is not
in the sources); spec section 4.1: assigns the whole buffer, one copy of the
`num_dofs` values `u` per entity.  The requester string is not consulted
(ownership is not enforced on access, spec section 9). -/
def Field.set_data (f : Field) (requester : String) (u : List Rat) : Field :=
  let _ := requester
  { f with data := f.data.map (fun _ => u) }

/-- Modelled from the spec: `Field::set_data(requester, u, mesh_block_id)`
(Field.cc is not in the sources); spec section 4.1: assigns `u` only on the
entities belonging to mesh block `mesh_block_id`. -/
def Field.set_data_block (f : Field) (requester : String) (u : List Rat)
    (mesh_block_id : Nat) : Field :=
  let _ := requester
  let rows := (f.data.zip f.entity_blocks).map
    (fun rb => if rb.2 = mesh_block_id then u else rb.1)
  { f with data := rows }

/-- Modelled from the spec: `Field::set_vector_data(requester, u,
mesh_block_id)` (Field.cc is not in the sources); spec section 4.1: for a
dof-count-1 vector field, assigns the 3 components per entity of the block;
the row of a block entity becomes the component list. -/
def Field.set_vector_data (f : Field) (requester : String)
    (u : Rat × Rat × Rat) (mesh_block_id : Nat) : Field :=
  let _ := requester
  let rows := (f.data.zip f.entity_blocks).map
    (fun rb => if rb.2 = mesh_block_id then [u.1, u.2.1, u.2.2] else rb.1)
  { f with data := rows }

/-- Modelled from the spec: the mutable `Field::get_data(requester)`
(Field.cc is not in the sources); spec sections 4.1 and 9: it returns the
writable buffer and does not verify the requester against the recorded
owner. -/
def Field.get_data_req (f : Field) (requester : String) : List (List Rat) :=
  let _ := requester
  f.data

/-- Modelled from the spec: `Field::operator=` (Field.cc is not in the
sources); spec section 5: assignment between copies of identical schema
overwrites only values, never structure — the data buffer, the initialized
latch and the current owner are copied from the source; name, location, dof
count, subfield names and entity layout are structural and kept. -/
def Field.assign (f s : Field) : Field :=
  { f with data := s.data, initialized := s.initialized, owner := s.owner }

/-- One mesh-block sublist of the parameter list: its "Mesh block ID" entry
and its own "Constant ..." entries. -/
structure BlockPL : Type where
  mesh_block_id : Nat
  entries : List (String × Rat)
deriving DecidableEq, Repr

/-- The parameter-list collaborator: the global scalar entries (keys spelled
in full, e.g. "Gravity x", "Constant Temperature") and the "Mesh block n"
sublists in order (so "Number of mesh blocks" is `blocks.length`). -/
structure ParameterList : Type where
  entries : List (String × Rat)
  blocks : List BlockPL
deriving DecidableEq, Repr

instance : Inhabited ParameterList := ⟨{ entries := [], blocks := [] }⟩

/-- The field registry (class `State`): the mesh handle, the configuration,
global scalars, the gravity vector, the name-to-index map over the ordered
field collection, and the simulation clock. -/
structure State : Type where
  mesh : Mesh
  parameter_list : ParameterList
  density : Rat
  viscosity : Rat
  gravity : List Rat
  field_name_map : List (String × Nat)
  fields : List Field
  time : Rat
  cycle : Int
  status : Int
deriving DecidableEq, Repr

/-- State constructor `State(mesh_maps)`: empty registry, zero scalars,
gravity resized to three zeros. -/
def State.create (mesh : Mesh) : State :=
  { mesh := mesh
    parameter_list := default
    density := 0
    viscosity := 0
    gravity := [0, 0, 0]
    field_name_map := []
    fields := []
    time := 0
    cycle := 0
    status := 0 }

/-- State constructor `State(parameter_list, mesh_maps)`. -/
def State.createWithPL (pl : ParameterList) (mesh : Mesh) : State :=
  { State.create mesh with parameter_list := pl }

/-- The private `State::get_field_record` lookup: the name-to-index map entry
followed by the indexed access into the field vector (fatal when the name is
unknown, hence the `Option`). -/
def State.get_field_record? (S : State) (fieldname : String) : Option Field :=
  (alookup S.field_name_map fieldname).bind (fun i => S.fields.get? i)

/-- The recorded owner of a named field, when the field exists. -/
def State.field_owner? (S : State) (fieldname : String) : Option String :=
  (S.get_field_record? fieldname).map Field.owner

/-- `State::require_field(fieldname, location, owner, num_dofs)`
(State.cc lines 234-273): create the field if the name is new; if the current
owner is "state", check the location and transfer ownership; if the requester
is "state", check the location and leave ownership alone; otherwise signal the
double-ownership error. -/
def State.require_field (S : State) (fieldname : String)
    (location : FieldLocation) (owner : String) (num_dofs : Nat) :
    Except String State :=
  match alookup S.field_name_map fieldname with
  | none =>
    -- Field does not yet exist; create a new one.
    .ok { S with
          field_name_map := (fieldname, S.fields.length) :: S.field_name_map
          fields := S.fields ++
            [Field.create fieldname location S.mesh owner num_dofs] }
  | some i =>
    let f := S.fields.getD i default
    if f.owner = "state" then
      -- Field exists, but is not owned.  Check location matches and
      -- (potentially) assert ownership.
      if location = f.location then
        .ok { S with fields := S.fields.set i (f.set_owner owner) }
      else
        .error ("Requested field " ++ fieldname ++
          " already exists on another location")
    else if owner = "state" then
      -- Field exists, and is owned, but this PK does not want to own it.
      -- Just check that the location matches.
      if location ≠ f.location then
        .error ("Requested field " ++ fieldname ++
          " already exists on another location")
      else
        .ok S
    else
      -- Field exists, and both PKs are asking to own it.
      .error ("Requested field " ++ fieldname ++
        " already exists and is owned")

/-- The const accessor `State::get_field(fieldname)`. -/
def State.get_field (S : State) (fieldname : String) :
    Option (List (List Rat)) :=
  (S.get_field_record? fieldname).map Field.data

/-- The mutable accessor `State::get_field(fieldname, pk_name)` (State.cc
lines 279-282): delegates to the field record's mutable `get_data`. -/
def State.get_field_mut (S : State) (fieldname : String) (pk_name : String) :
    Option (List (List Rat)) :=
  (S.get_field_record? fieldname).map (fun f => f.get_data_req pk_name)

/-- Update of the record a setter obtained from `get_field_record`; an
unknown name is fatal (spec section 7). -/
def State.update_record (S : State) (fieldname : String)
    (g : Field → Field) : Except String State :=
  match alookup S.field_name_map fieldname with
  | none => .error ("unknown field " ++ fieldname)
  | some i =>
    .ok { S with fields := S.fields.set i (g (S.fields.getD i default)) }

/-- `State::set_field(fieldname, pk_name, u)` with a full-buffer value. -/
def State.set_field (S : State) (fieldname pk_name : String)
    (u : List Rat) : Except String State :=
  S.update_record fieldname (fun f => f.set_data pk_name u)

/-- `State::set_field(fieldname, pk_name, u, mesh_block_id)`. -/
def State.set_field_block (S : State) (fieldname pk_name : String)
    (u : List Rat) (mesh_block_id : Nat) : Except String State :=
  S.update_record fieldname (fun f => f.set_data_block pk_name u mesh_block_id)

/-- `State::set_vector_field(fieldname, pk_name, u, mesh_block_id)`. -/
def State.set_vector_field (S : State) (fieldname pk_name : String)
    (u : Rat × Rat × Rat) (mesh_block_id : Nat) : Except String State :=
  S.update_record fieldname (fun f => f.set_vector_data pk_name u mesh_block_id)

/-- `State::set_field_pointer(fieldname, pk_name, data)`: replaces the
buffer wholesale. -/
def State.set_field_pointer (S : State) (fieldname pk_name : String)
    (rows : List (List Rat)) : Except String State :=
  let _ := pk_name
  S.update_record fieldname (fun f => { f with data := rows })

/-- `State::set_subfield_names(fieldname, subfield_names)`. -/
def State.set_subfield_names (S : State) (fieldname : String)
    (names : List String) : Except String State :=
  S.update_record fieldname (fun f => f.set_subfield_names names)

def State.set_density (S : State) (wd : Rat) : State :=
  { S with density := wd }

def State.set_viscosity (S : State) (mu : Rat) : State :=
  { S with viscosity := mu }

def State.set_gravity (S : State) (g : List Rat) : State :=
  { S with gravity := g }

/-- The copy constructor `State(const State& s)` (State.cc lines 59-80):
fresh scalar cells holding the same values, map copied, each field
deep-copied (`new Field(*...)` — value copy), clock and status copied; the
parameter list member is not copied. -/
def State.copyCtor (s : State) : State :=
  { mesh := s.mesh
    parameter_list := default
    density := s.density
    viscosity := s.viscosity
    gravity := s.gravity
    field_name_map := s.field_name_map
    fields := s.fields.map (fun f => f)
    time := s.time
    cycle := s.cycle
    status := s.status }

/-- `State::operator=` (State.cc lines 89-111): a differing field count is
the fatal non-compatible-states error, thrown before any datum of the target
is touched; otherwise mesh handle, scalar values, gravity, name map, each
field's values, time, cycle and status are assigned from the source.  (The
`this != &s` self-assignment guard of the source is observationally the
identity in this value model.) -/
def State.assign (t s : State) : Except String State :=
  if t.fields.length ≠ s.fields.length then
    .error "Attempted copy of non-compatible states."
  else
    .ok { t with
          mesh := s.mesh
          density := s.density
          viscosity := s.viscosity
          gravity := s.gravity
          field_name_map := s.field_name_map
          fields := List.zipWith Field.assign t.fields s.fields
          time := s.time
          cycle := s.cycle
          status := s.status }

/-- Exception semantics of `amanzi_throw` for the registry operations whose
checks precede every mutation (require_field, operator=, the setters): the
thrown error leaves the object as it was. -/
def State.exceptRun (S : State) (r : Except String State) : State :=
  match r with
  | .ok S2 => S2
  | .error _ => S

/-- `State::check_all_initialized` (State.cc lines 120-126): the loop
returns false at the first field whose latch is unset, true after the
last field otherwise. -/
def State.check_all_initialized (S : State) : Bool :=
  S.fields.all (fun f => f.initialized)

/-- The inner gathering loop of `State::initialize_from_parameter_list`
(State.cc lines 156-165 and 195-205): one "Constant <subfield name>" lookup
per subfield name, breaking out empty-handed at the first missing one. -/
def gatherConstants (entries : List (String × Rat)) :
    List String → Option (List Rat)
  | [] => some []
  | n :: rest =>
    match alookup entries ("Constant " ++ n) with
    | none => none
    | some v => (gatherConstants entries rest).map (fun us => v :: us)

/-- The per-field body of the global constant-initialization pass (State.cc
lines 149-174): cell-located fields whose subfield-name count equals the dof
count get the gathered constants over the whole buffer and the initialized
latch, and are untouched when any constant is missing. -/
def initFieldGlobal (entries : List (String × Rat)) (f : Field) : Field :=
  if f.location = .cell then
    if f.subfield_names.length = f.num_dofs then
      match gatherConstants entries f.subfield_names with
      | some u => (f.set_data f.owner u).set_initialized
      | none => f
    else f
  else f

/-- The per-field body of the block-scoped pass (State.cc lines 185-229):
cell fields as in the global pass but restricted to the block; face fields of
dof count 1 are matched by the "<name> x/y/z" key convention, where a present
x component with a missing y or z component is a fatal configuration lookup
(`sublist.get` throws). -/
def initFieldBlock (entries : List (String × Rat)) (mesh_block_id : Nat)
    (f : Field) : Except String Field :=
  if f.location = .cell then
    if f.subfield_names.length = f.num_dofs then
      match gatherConstants entries f.subfield_names with
      | some u => .ok ((f.set_data_block f.owner u mesh_block_id).set_initialized)
      | none => .ok f
    else .ok f
  else if f.location = .face then
    if f.num_dofs = 1 then
      if (alookup entries ("Constant " ++ f.fieldname ++ " x")).isSome then
        match alookup entries ("Constant " ++ f.fieldname ++ " x"),
              alookup entries ("Constant " ++ f.fieldname ++ " y"),
              alookup entries ("Constant " ++ f.fieldname ++ " z") with
        | some ux, some uy, some uz =>
          .ok ((f.set_vector_data f.owner (ux, uy, uz) mesh_block_id).set_initialized)
        | _, _, _ =>
          .error ("missing component for vector field " ++ f.fieldname)
      else .ok f
    else .ok f
  else .ok f

/-- The field loop of one block of the block-scoped pass: fields are
processed in order; a throw mid-loop leaves the throwing field and every
later field untouched while keeping the mutations already made. -/
def blockFieldsGo (entries : List (String × Rat)) (mesh_block_id : Nat) :
    List Field → List Field × Option String
  | [] => ([], none)
  | f :: rest =>
    match initFieldBlock entries mesh_block_id f with
    | .error e => (f :: rest, some e)
    | .ok f2 =>
      let r := blockFieldsGo entries mesh_block_id rest
      (f2 :: r.1, r.2)

/-- The loop over mesh blocks (State.cc lines 176-231), threading the field
vector and stopping at the first thrown lookup error. -/
def blocksGo : List BlockPL → List Field → List Field × Option String
  | [], fields => (fields, none)
  | b :: bs, fields =>
    match blockFieldsGo b.entries b.mesh_block_id fields with
    | (fs, some e) => (fs, some e)
    | (fs, none) => blocksGo bs fs

/-- `State::initialize_from_parameter_list` (State.cc lines 130-232): the
mandatory gravity components, the optional density and viscosity constants,
the global constant pass over all fields, then the per-block pass.  The
result pairs the (possibly partially mutated) registry with the error of a
thrown mandatory lookup, when one was thrown; the three gravity lookups
precede every mutation. -/
def State.initialize_from_parameter_list (S : State) : State × Option String :=
  match alookup S.parameter_list.entries "Gravity x",
        alookup S.parameter_list.entries "Gravity y",
        alookup S.parameter_list.entries "Gravity z" with
  | some gx, some gy, some gz =>
    let S1 := S.set_gravity [gx, gy, gz]
    let S2 :=
      match alookup S.parameter_list.entries "Constant water density" with
      | some d => S1.set_density d
      | none => S1
    let S3 :=
      match alookup S.parameter_list.entries "Constant viscosity" with
      | some mu => S2.set_viscosity mu
      | none => S2
    let S4 := { S3 with
                fields := S3.fields.map (initFieldGlobal S.parameter_list.entries) }
    let r := blocksGo S.parameter_list.blocks S4.fields
    ({ S4 with fields := r.1 }, r.2)
  | _, _, _ => (S, some "Gravity parameter missing")

/-- `State::initialize` (State.cc lines 115-117). -/
def State.doInitialize (S : State) : State × Option String :=
  S.initialize_from_parameter_list

/-- `WeakMPC::advance(dt)` (WeakMPC.cc lines 29-39), instrumented: a sub-PK
is its `advance` function (`true` = step failure as in the source); the first
component is the returned flag, the second counts the sub-PK `advance` calls
made, so the invoked sub-PKs are exactly the first that many in declared
order. -/
def WeakMPC.advanceAux : List (Rat → Bool) → Rat → Bool × Nat
  | [], _ => (false, 0)
  | pk :: rest, dt =>
    let fail := pk dt
    if fail then (fail, 1)
    else
      let r := WeakMPC.advanceAux rest dt
      (r.1, r.2 + 1)

/-- The returned flag of `WeakMPC::advance(dt)`. -/
def WeakMPC.advance (sub_pks : List (Rat → Bool)) (dt : Rat) : Bool :=
  (WeakMPC.advanceAux sub_pks dt).1

/-- Heap of `Field` objects for the pointer-level model of the copy
constructor: `Teuchos::RCP<Field>` handles are indices into the cell list. -/
structure FieldHeap : Type where
  cells : List Field
deriving DecidableEq, Repr

def FieldHeap.read (h : FieldHeap) (p : Nat) : Field :=
  h.cells.getD p default

def FieldHeap.write (h : FieldHeap) (p : Nat) (f : Field) : FieldHeap :=
  { cells := h.cells.set p f }

/-- Pointer-level view of a registry: the name map plus one heap pointer per
field slot; scalar members are value-copied fresh cells and so appear by
value. -/
structure StateRef : Type where
  field_name_map : List (String × Nat)
  field_ptrs : List Nat
  density : Rat
  viscosity : Rat
  gravity : List Rat
  time : Rat
  cycle : Int
deriving DecidableEq, Repr

/-- The copy constructor at the pointer level (State.cc lines 59-80): the
name map is copied, and each field slot gets a freshly allocated cell holding
a value copy of the source's field (`new Field(*(s.fields_[lcv]))`). -/
def copyStateRef (h : FieldHeap) (s : StateRef) : FieldHeap × StateRef :=
  ({ cells := h.cells ++ s.field_ptrs.map h.read },
   { s with field_ptrs :=
      (List.range s.field_ptrs.length).map (fun i => h.cells.length + i) })

/-- Field-buffer read through a registry's pointer (the const
`get_field`). -/
def getFieldRefData (h : FieldHeap) (s : StateRef) (fieldname : String) :
    Option (List (List Rat)) :=
  (alookup s.field_name_map fieldname).bind
    (fun i => (s.field_ptrs.get? i).map (fun p => (h.read p).data))

/-- Field-buffer write through a registry's pointer (`set_field`). -/
def setFieldRef (h : FieldHeap) (s : StateRef) (fieldname pk_name : String)
    (u : List Rat) : FieldHeap :=
  match (alookup s.field_name_map fieldname).bind
      (fun i => s.field_ptrs.get? i) with
  | some p => h.write p ((h.read p).set_data pk_name u)
  | none => h

/-- The registry consistency invariant (spec section 3): every map entry
names a valid index whose field carries that name, the map keys are
distinct, and every field index is hit by exactly one map entry. -/
def State.WF (S : State) : Prop :=
  (∀ p ∈ S.field_name_map,
     p.2 < S.fields.length ∧ (S.fields.getD p.2 default).fieldname = p.1) ∧
  (S.field_name_map.map Prod.fst).Nodup ∧
  (∀ i < S.fields.length,
     S.field_name_map.countP (fun p => p.2 == i) = 1)

instance (S : State) : Decidable S.WF := by
  unfold State.WF
  infer_instance

/-- A small concrete mesh: three cells (blocks 1, 1, 2) and two faces. -/
def demoMesh : Mesh :=
  { cell_block := [1, 1, 2], face_block := [1, 2], node_block := [] }

def demoState0 : State := State.create demoMesh

/-- Registry after requiring an independent (state-owned) pressure field. -/
def demoState1 : State :=
  demoState0.exceptRun
    (demoState0.require_field "pressure" FieldLocation.cell "state" 1)

/-- Registry after a PK additionally claims a temperature field. -/
def demoState2 : State :=
  demoState1.exceptRun
    (demoState1.require_field "temperature" FieldLocation.cell "energy_pk" 2)

/-- A one-field registry whose only field is named "pressure". -/
def cexA : State :=
  { demoState0 with field_name_map := [("pressure", 0)], fields := [Field.create "pressure" FieldLocation.cell demoMesh "state" 1] }

/-- A one-field registry with a different schema: one face-located field
named "temperature" owned by a PK. -/
def cexB : State :=
  { demoState0 with field_name_map := [("temperature", 0)], fields := [Field.create "temperature" FieldLocation.face demoMesh "flow_pk" 1] }

/-- Configuration entries giving a constant for the one subfield name of
`demoTempField`. -/
def demoEntries : List (String × Rat) := [("Constant Temperature", 5463/20)]

/-- A cell-located one-dof field with a matching subfield-name list. -/
def demoTempField : Field :=
  { Field.create "temperature" FieldLocation.cell demoMesh "state" 1 with subfield_names := ["Temperature"] }

/-- A one-cell heap holding one field object. -/
def demoHeap : FieldHeap :=
  { cells := [Field.create "pressure" FieldLocation.cell demoMesh "state" 1] }

/-- A pointer-level registry whose single field slot points at cell 0. -/
def demoRef : StateRef :=
  { field_name_map := [("pressure", 0)], field_ptrs := [0], density := 0, viscosity := 0, gravity := [0, 0, 0], time := 0, cycle := 0 }

theorem alookup_eq_none {α : Type} (l : List (String × α)) (k : String) :
    alookup l k = none ↔ ∀ p ∈ l, p.1 ≠ k := by
  induction l with
  | nil => simp [alookup]
  | cons p rest ih =>
    by_cases h : p.1 = k <;> simp [alookup, h, ih]

theorem listGetD_set_self {α : Type} (l : List α) (i : Nat) (x d : α)
    (h : i < l.length) : (l.set i x).getD i d = x := by
  simp [List.getD_eq_getElem?_getD, List.getElem?_set_self h]

theorem listGetD_set_ne {α : Type} (l : List α) (i j : Nat) (x d : α)
    (h : i ≠ j) : (l.set i x).getD j d = l.getD j d := by
  simp [List.getD_eq_getElem?_getD, List.getElem?_set_ne h]

theorem listSet_getD_self {α : Type} (l : List α) (i : Nat) (d : α) :
    l.set i (l.getD i d) = l := by
  induction l generalizing i with
  | nil => rfl
  | cons a t ih =>
    cases i with
    | zero => rfl
    | succ n =>
      simp only [List.set, List.getD_eq_getElem?_getD, List.getElem?_cons_succ]
      rw [← List.getD_eq_getElem?_getD, ih n]

theorem listGetD_map {α β : Type} (f : α → β) (l : List α) (i : Nat) (d : α) :
    (l.map f).getD i (f d) = f (l.getD i d) := by
  induction l generalizing i with
  | nil => simp [List.getD]
  | cons a t ih =>
    cases i with
    | zero => rfl
    | succ n => simp [List.getD, ih n]

theorem listGetD_append_left {α : Type} (l l2 : List α) (i : Nat) (d : α)
    (h : i < l.length) : (l ++ l2).getD i d = l.getD i d := by
  simp [List.getD_eq_getElem?_getD, List.getElem?_append, h]

theorem listGetD_append_self {α : Type} (l : List α) (x : α) (d : α) :
    (l ++ [x]).getD l.length d = x := by
  simp [List.getD_eq_getElem?_getD, List.getElem?_append]

theorem listGet?_append_self {α : Type} (l : List α) (x : α) :
    (l ++ [x]).get? l.length = some x := by
  simp [List.get?_eq_getElem?, List.getElem?_append]

theorem listGet?_set_self {α : Type} (l : List α) (i : Nat) (x : α)
    (h : i < l.length) : (l.set i x).get? i = some x := by
  simp [List.get?_eq_getElem?, List.getElem?_set_self h]

theorem WF_congr (S T : State)
    (hmap : T.field_name_map = S.field_name_map)
    (hnames : T.fields.map Field.fieldname = S.fields.map Field.fieldname)
    (hWF : S.WF) : T.WF := by
  obtain ⟨h1, h2, h3⟩ := hWF
  have hlen : T.fields.length = S.fields.length := by
    have h := congrArg List.length hnames
    simpa using h
  refine ⟨?_, ?_, ?_⟩
  · intro p hp
    rw [hmap] at hp
    obtain ⟨hlt, hname⟩ := h1 p hp
    refine ⟨by omega, ?_⟩
    have ht := listGetD_map Field.fieldname T.fields p.2 default
    have hs := listGetD_map Field.fieldname S.fields p.2 default
    rw [← ht, hnames, hs, hname]
  · rw [hmap]; exact h2
  · intro i hi
    rw [hmap]
    exact h3 i (by omega)

theorem Field.set_data_fieldname (f : Field) (r : String) (u : List Rat) :
    (f.set_data r u).fieldname = f.fieldname := rfl

theorem Field.set_data_block_fieldname (f : Field) (r : String) (u : List Rat)
    (b : Nat) : (f.set_data_block r u b).fieldname = f.fieldname := rfl

theorem Field.set_vector_data_fieldname (f : Field) (r : String)
    (u : Rat × Rat × Rat) (b : Nat) :
    (f.set_vector_data r u b).fieldname = f.fieldname := rfl

theorem Field.set_initialized_fieldname (f : Field) :
    (f.set_initialized).fieldname = f.fieldname := rfl

theorem Field.set_owner_fieldname (f : Field) (o : String) :
    (f.set_owner o).fieldname = f.fieldname := rfl

theorem Field.set_subfield_names_fieldname (f : Field) (ns : List String) :
    (f.set_subfield_names ns).fieldname = f.fieldname := rfl

theorem Field.assign_fieldname (f s : Field) :
    (Field.assign f s).fieldname = f.fieldname := rfl

theorem initFieldGlobal_fieldname (e : List (String × Rat)) (f : Field) :
    (initFieldGlobal e f).fieldname = f.fieldname := by
  unfold initFieldGlobal
  split
  · split
    · split
      · rfl
      · rfl
    · rfl
  · rfl

theorem initFieldBlock_ok_fieldname (e : List (String × Rat)) (b : Nat)
    (f f2 : Field) (h : initFieldBlock e b f = .ok f2) :
    f2.fieldname = f.fieldname := by
  unfold initFieldBlock at h
  repeat' split at h
  all_goals first
    | exact Except.noConfusion h
    | (injection h with h; subst h; rfl)

theorem mapNames_of_preserve (g : Field → Field)
    (hg : ∀ f, (g f).fieldname = f.fieldname) (l : List Field) :
    (l.map g).map Field.fieldname = l.map Field.fieldname := by
  rw [List.map_map]
  exact List.map_congr_left (fun f _ => hg f)

theorem blockFieldsGo_names (e : List (String × Rat)) (b : Nat)
    (l : List Field) :
    ((blockFieldsGo e b l).1).map Field.fieldname = l.map Field.fieldname := by
  induction l with
  | nil => rfl
  | cons f rest ih =>
    unfold blockFieldsGo
    cases h : initFieldBlock e b f with
    | error e2 => simp
    | ok f2 => simp [initFieldBlock_ok_fieldname e b f f2 h, ih]

theorem blocksGo_names : ∀ (bs : List BlockPL) (l : List Field),
    ((blocksGo bs l).1).map Field.fieldname = l.map Field.fieldname
  | [], _ => rfl
  | b :: bs, l => by
    have hb := blockFieldsGo_names b.entries b.mesh_block_id l
    unfold blocksGo
    rcases hfs : blockFieldsGo b.entries b.mesh_block_id l with ⟨fs, err⟩
    rw [hfs] at hb
    cases err with
    | none =>
      have hr := blocksGo_names bs fs
      simpa [hr] using hb
    | some e2 => simpa using hb

theorem zipWith_assign_names : ∀ (a b : List Field), b.length = a.length →
    (List.zipWith Field.assign a b).map Field.fieldname =
      a.map Field.fieldname
  | [], _, _ => rfl
  | f :: a, g :: b, h => by
    simp only [List.zipWith, List.map, Field.assign_fieldname]
    rw [zipWith_assign_names a b (by simpa using h)]
  | f :: a, [], h => by simp at h

theorem record_some_elim (S : State) (fieldname : String) (f : Field)
    (h : S.get_field_record? fieldname = some f) :
    ∃ i, alookup S.field_name_map fieldname = some i ∧
      S.fields.get? i = some f ∧ S.fields.getD i default = f ∧
      S.fields[i]?.getD default = f ∧ i < S.fields.length := by
  unfold State.get_field_record? at h
  cases h2 : alookup S.field_name_map fieldname with
  | none => simp [h2] at h
  | some i =>
    have hget : S.fields.get? i = some f := by simpa [h2] using h
    have hD : S.fields.getD i default = f := by
      rw [List.getD_eq_getElem?_getD, ← List.get?_eq_getElem?, hget]
      rfl
    have hlt : i < S.fields.length := by
      by_contra hge
      rw [List.get?_eq_none.2 (by omega)] at hget
      exact Option.noConfusion hget
    exact ⟨i, rfl, hget, hD, by rw [← List.getD_eq_getElem?_getD]; exact hD, hlt⟩

theorem gatherConstants_isSome (entries : List (String × Rat)) :
    ∀ names : List String, (gatherConstants entries names).isSome ↔
      ∀ n ∈ names, (alookup entries ("Constant " ++ n)).isSome
  | [] => by simp [gatherConstants]
  | n :: rest => by
    unfold gatherConstants
    cases h : alookup entries ("Constant " ++ n) with
    | none => simp [h]
    | some v => simp [h, gatherConstants_isSome entries rest]

theorem set_apply_names (l : List Field) (i : Nat) (g : Field → Field)
    (hg : ∀ f, (g f).fieldname = f.fieldname) :
    (l.set i (g (l.getD i default))).map Field.fieldname =
      l.map Field.fieldname := by
  rw [List.map_set, hg (l.getD i default),
    ← listGetD_map Field.fieldname l i default]
  exact listSet_getD_self _ _ _

@[simp]
theorem exceptRun_ok (S T : State) : S.exceptRun (Except.ok T) = T := rfl

@[simp]
theorem exceptRun_error (S : State) (e : String) :
    S.exceptRun (Except.error e) = S := rfl

theorem update_record_wf (S : State) (hWF : S.WF) (fieldname : String)
    (g : Field → Field) (hg : ∀ f, (g f).fieldname = f.fieldname) :
    (S.exceptRun (S.update_record fieldname g)).WF := by
  unfold State.update_record
  split
  · rw [exceptRun_error]
    exact hWF
  · rw [exceptRun_ok]
    exact WF_congr S _ rfl (set_apply_names S.fields _ g hg) hWF

theorem require_field_wf (S : State) (hWF : S.WF) (fieldname : String)
    (location : FieldLocation) (owner : String) (num_dofs : Nat) :
    (S.exceptRun (S.require_field fieldname location owner num_dofs)).WF := by
  unfold State.require_field
  split
  next h =>
    rw [exceptRun_ok]
    obtain ⟨h1, h2, h3⟩ := hWF
    refine ⟨?_, ?_, ?_⟩
    · intro p hp
      rcases List.mem_cons.1 hp with hp | hp
      · subst hp
        refine ⟨by simp, ?_⟩
        rw [listGetD_append_self]
        rfl
      · obtain ⟨hlt, hname⟩ := h1 p hp
        refine ⟨by simp; omega, ?_⟩
        rw [listGetD_append_left _ _ _ _ hlt]
        exact hname
    · simp only [List.map_cons]
      refine List.nodup_cons.2 ⟨?_, h2⟩
      intro hmem
      obtain ⟨p, hp, hp1⟩ := List.mem_map.1 hmem
      exact ((alookup_eq_none _ _).1 h p hp) hp1
    · intro i hi
      simp only [List.length_append, List.length_cons, List.length_nil] at hi
      rw [List.countP_cons]
      by_cases hie : S.fields.length = i
      · have hz : S.field_name_map.countP (fun p => p.2 == i) = 0 :=
          List.countP_eq_zero.2 (fun p hp => by
            have hplt := (h1 p hp).1
            simp only [beq_iff_eq]
            omega)
        simp [hz, hie]
      · rw [h3 i (by omega)]
        simp [hie]
  next i h =>
    by_cases ho : (S.fields.getD i default).owner = "state"
    · by_cases hl : location = (S.fields.getD i default).location
      · simp only [ho, hl, if_true, exceptRun_ok]
        exact WF_congr S _ rfl
          (set_apply_names S.fields i (fun f => f.set_owner owner)
            (fun f => rfl)) hWF
      · simp only [ho, hl, if_true, if_false, exceptRun_error]
        exact hWF
    · by_cases hs : owner = "state"
      · by_cases hl : location = (S.fields.getD i default).location
        · simp only [ho, hs, hl, ne_eq, if_false, if_true, not_true_eq_false,
            exceptRun_ok, exceptRun_error]
          exact hWF
        · simp only [ho, hs, hl, ne_eq, if_false, if_true, not_false_eq_true,
            exceptRun_ok, exceptRun_error]
          exact hWF
      · simp only [ho, hs, if_false, exceptRun_error]
        exact hWF

/-- Claim C6: for every registry state, `check_all_initialized()` returns
true if and only if every field's `initialized()` latch is set, and returns
false exactly when at least one field is not initialized. -/
theorem C6_check_all_initialized_iff (S : State) :
    (S.check_all_initialized = true ↔
      ∀ f ∈ S.fields, f.initialized = true) ∧
    (S.check_all_initialized = false ↔
      ∃ f ∈ S.fields, f.initialized = false) := by
  constructor
  · simp [State.check_all_initialized, List.all_eq_true]
  · simp [State.check_all_initialized, List.all_eq_false]

/-- Claim C2: `WeakMPC::advance(dt)` invokes the sub-PK `advance(dt)` calls
in declared order (the invocation count is the second component of
`advanceAux`, so the invoked sub-PKs are exactly an initial segment of the
declared list): when every sub-PK succeeds it makes all calls and returns
success, and when the sub-PK at position k is the first to fail it makes
exactly the first k+1 calls — later sub-PKs are never invoked — and returns
failure. -/
theorem C2_weak_mpc_advance (sub_pks : List (Rat → Bool)) (dt : Rat) :
    ((∀ pk ∈ sub_pks, pk dt = false) →
      WeakMPC.advanceAux sub_pks dt = (false, sub_pks.length) ∧
      WeakMPC.advance sub_pks dt = false) ∧
    (∀ k pk, sub_pks.get? k = some pk → pk dt = true →
      (∀ j qk, j < k → sub_pks.get? j = some qk → qk dt = false) →
      WeakMPC.advanceAux sub_pks dt = (true, k + 1) ∧
      WeakMPC.advance sub_pks dt = true) := by
  induction sub_pks with
  | nil =>
    refine ⟨fun _ => ⟨rfl, rfl⟩, ?_⟩
    intro k pk hk
    simp at hk
  | cons p rest ih =>
    constructor
    · intro hall
      have hp : p dt = false := hall p (by simp)
      have hr := (ih.1 (fun q hq => hall q (by simp [hq]))).1
      constructor
      · simp [WeakMPC.advanceAux, hp, hr]
      · simp [WeakMPC.advance, WeakMPC.advanceAux, hp, hr]
    · intro k pk hk hfail hprev
      cases k with
      | zero =>
        have hp : p dt = true := by
          simp at hk
          rw [hk]; exact hfail
        constructor
        · simp [WeakMPC.advanceAux, hp]
        · simp [WeakMPC.advance, WeakMPC.advanceAux, hp]
      | succ n =>
        have hp : p dt = false := hprev 0 p (Nat.succ_pos n) (by simp)
        have hr := (ih.2 n pk (by simpa using hk) hfail
          (fun j qk hj hq => hprev (j + 1) qk (by omega) (by simpa using hq))).1
        constructor
        · simp [WeakMPC.advanceAux, hp, hr]
        · simp [WeakMPC.advance, WeakMPC.advanceAux, hp, hr]

/-- Witness for C2 at the spec's concrete scenario: sub-PKs [P1, P2, P3]
with P2 the first failure; exactly P1 and P2 are invoked (count 2) and the
call returns failure. -/
theorem C2_witness :
    WeakMPC.advanceAux
      [fun _ => false, fun _ => true, fun _ => false] 1 = (true, 2) :=
  ((C2_weak_mpc_advance
      [fun _ => false, fun _ => true, fun _ => false] 1).2 1 _ rfl rfl
    (by
      intro j qk hj hq
      interval_cases j
      simp at hq
      rw [← hq])).1

/-- Claim C3: assigning a registry from another with a different field count
signals the fatal incompatible-state error, and — because the count check
precedes every write in `State::operator=` — the thrown error leaves every
datum of the target unchanged. -/
theorem C3_assign_count_mismatch_fatal (t s : State)
    (h : t.fields.length ≠ s.fields.length) :
    State.assign t s = .error "Attempted copy of non-compatible states." ∧
    t.exceptRun (State.assign t s) = t := by
  constructor
  · simp [State.assign, h]
  · simp [State.assign, h, State.exceptRun]

/-- Witness for C3: a one-field registry assigned from the empty registry. -/
theorem C3_witness :
    cexA.fields.length ≠ demoState0.fields.length ∧
    State.assign cexA demoState0 =
      .error "Attempted copy of non-compatible states." ∧
    cexA.exceptRun (State.assign cexA demoState0) = cexA :=
  ⟨by decide, C3_assign_count_mismatch_fatal cexA demoState0 (by decide)⟩

/-- Counterexample to claim C4: `cexA` and `cexB` have the same field count
but different schemas (different field name, location and owner), yet the
assignment `cexB = cexA` succeeds instead of failing — `State::operator=`
checks only the field count. -/
theorem C4_counterexample :
    cexB.fields.map Field.fieldname ≠ cexA.fields.map Field.fieldname ∧
    cexB.fields.length = cexA.fields.length ∧
    ∃ T, State.assign cexB cexA = .ok T := by
  refine ⟨by decide, by decide, ⟨_, rfl⟩⟩

/-- Claim C4 as amended: registry assignment succeeds exactly when the two
field counts agree; schema differences that keep the count equal (different
names, locations, or order) are not detected and do not make it fail. -/
theorem C4_assign_checks_only_count (t s : State) :
    (∃ T, State.assign t s = .ok T) ↔ t.fields.length = s.fields.length := by
  unfold State.assign
  by_cases h : t.fields.length = s.fields.length
  · simp [h]
  · simp [h]

/-- Claim C9: the mutable accessor `get_field(fieldname, pk_name)` performs
no owner check: for every registered field and every requester string the
call succeeds, returns the writable buffer, and the result does not depend
on the requester. -/
theorem C9_get_field_mut_no_owner_check (S : State)
    (fieldname pk_name pk_name2 : String) (f : Field)
    (h : S.get_field_record? fieldname = some f) :
    S.get_field_mut fieldname pk_name = some f.data ∧
    S.get_field_mut fieldname pk_name =
      S.get_field_mut fieldname pk_name2 := by
  constructor
  · simp [State.get_field_mut, h, Field.get_data_req]
  · simp [State.get_field_mut, h, Field.get_data_req]

/-- Witness for C9: the state-owned pressure field is writable through the
mutable accessor by a requester that is not its owner. -/
theorem C9_witness :
    demoState1.get_field_mut "pressure" "some_pk" =
      some (Field.create "pressure" FieldLocation.cell demoMesh "state" 1).data ∧
    demoState1.get_field_mut "pressure" "some_pk" =
      demoState1.get_field_mut "pressure" "another_pk" :=
  C9_get_field_mut_no_owner_check demoState1 "pressure" "some_pk"
    "another_pk" (Field.create "pressure" FieldLocation.cell demoMesh "state" 1)
    (by decide)

/-- Claim C10: `require_field` is not idempotent for a PK's own field — once
a field is owned by some Y distinct from "state", a second `require_field`
for the same name with requested owner Y (any location) falls through to the
final arbitration branch and raises the fatal double-ownership error. -/
theorem C10_require_field_not_idempotent (S : State) (fieldname : String)
    (location : FieldLocation) (num_dofs : Nat) (f : Field)
    (hrec : S.get_field_record? fieldname = some f)
    (hown : f.owner ≠ "state") :
    S.require_field fieldname location f.owner num_dofs =
      .error ("Requested field " ++ fieldname ++
        " already exists and is owned") := by
  obtain ⟨i, hi, hget⟩ :
      ∃ i, alookup S.field_name_map fieldname = some i ∧
        S.fields.get? i = some f := by
    unfold State.get_field_record? at hrec
    cases h2 : alookup S.field_name_map fieldname with
    | none => simp [h2] at hrec
    | some i => exact ⟨i, rfl, by simpa [h2] using hrec⟩
  have hD : S.fields.getD i default = f := by
    rw [List.getD_eq_getElem?_getD, ← List.get?_eq_getElem?, hget]
    rfl
  have hD2 : S.fields[i]?.getD default = f := by
    rw [← List.getD_eq_getElem?_getD]
    exact hD
  unfold State.require_field
  rw [hi]
  simp [hD, hD2, hown]

/-- Claim C1: one step of the `require_field` arbitration table (universally
quantified over the registry state, so any call sequence is covered by
chaining): a non-existent name creates the field with the requested owner; a
state-owned field transfers to a differing requester when the location
matches and is a fatal error otherwise; an owned field requested by "state"
is a no-op when the location matches and a fatal error otherwise; and a
non-"state" request against a differing non-"state" owner is the fatal
double-ownership error regardless of location. -/
theorem C1_require_field_arbitration (S : State) (fieldname : String)
    (location : FieldLocation) (owner : String) (num_dofs : Nat) :
    (alookup S.field_name_map fieldname = none →
      ∃ T, S.require_field fieldname location owner num_dofs = .ok T ∧
        T.get_field_record? fieldname =
          some (Field.create fieldname location S.mesh owner num_dofs) ∧
        T.field_owner? fieldname = some owner) ∧
    (∀ f, S.get_field_record? fieldname = some f → f.owner = "state" →
      owner ≠ "state" → location = f.location →
      ∃ T, S.require_field fieldname location owner num_dofs = .ok T ∧
        T.field_owner? fieldname = some owner) ∧
    (∀ f, S.get_field_record? fieldname = some f → f.owner = "state" →
      location ≠ f.location →
      ∃ e, S.require_field fieldname location owner num_dofs = .error e) ∧
    (∀ f, S.get_field_record? fieldname = some f → f.owner ≠ "state" →
      owner = "state" → location = f.location →
      S.require_field fieldname location owner num_dofs = .ok S ∧
      S.field_owner? fieldname = some f.owner) ∧
    (∀ f, S.get_field_record? fieldname = some f → f.owner ≠ "state" →
      owner = "state" → location ≠ f.location →
      ∃ e, S.require_field fieldname location owner num_dofs = .error e) ∧
    (∀ f, S.get_field_record? fieldname = some f → f.owner ≠ "state" →
      owner ≠ "state" → owner ≠ f.owner →
      ∃ e, S.require_field fieldname location owner num_dofs = .error e) := by
  refine ⟨?_, ?_, ?_, ?_, ?_, ?_⟩
  · intro h
    refine ⟨{ S with
        field_name_map := (fieldname, S.fields.length) :: S.field_name_map
        fields := S.fields ++
          [Field.create fieldname location S.mesh owner num_dofs] },
      ?_, ?_, ?_⟩
    · unfold State.require_field
      rw [h]
    · simp [State.get_field_record?, alookup, listGet?_append_self]
    · simp [State.field_owner?, State.get_field_record?, alookup,
        listGet?_append_self, Field.create]
  · intro f hrec hstate hreq hloc
    obtain ⟨i, hi, hget, hD, hD2, hlt⟩ := record_some_elim S fieldname f hrec
    refine ⟨{ S with fields := S.fields.set i (f.set_owner owner) }, ?_, ?_⟩
    · unfold State.require_field
      rw [hi]
      simp [hD, hD2, hstate, hloc]
    · unfold State.field_owner? State.get_field_record?
      rw [hi]
      show ((S.fields.set i (f.set_owner owner)).get? i).map Field.owner =
        some owner
      rw [listGet?_set_self S.fields i (f.set_owner owner) hlt]
      rfl
  · intro f hrec hstate hloc
    obtain ⟨i, hi, hget, hD, hD2, hlt⟩ := record_some_elim S fieldname f hrec
    refine ⟨"Requested field " ++ fieldname ++
      " already exists on another location", ?_⟩
    unfold State.require_field
    rw [hi]
    simp [hD, hD2, hstate, hloc]
  · intro f hrec hown hreq hloc
    obtain ⟨i, hi, hget, hD, hD2, hlt⟩ := record_some_elim S fieldname f hrec
    constructor
    · unfold State.require_field
      rw [hi]
      simp [hD, hD2, hown, hreq, hloc]
    · simp [State.field_owner?, hrec]
  · intro f hrec hown hreq hloc
    obtain ⟨i, hi, hget, hD, hD2, hlt⟩ := record_some_elim S fieldname f hrec
    refine ⟨"Requested field " ++ fieldname ++
      " already exists on another location", ?_⟩
    unfold State.require_field
    rw [hi]
    simp [hD, hD2, hown, hreq, hloc]
  · intro f hrec hown hreq hdist
    obtain ⟨i, hi, hget, hD, hD2, hlt⟩ := record_some_elim S fieldname f hrec
    refine ⟨"Requested field " ++ fieldname ++
      " already exists and is owned", ?_⟩
    unfold State.require_field
    rw [hi]
    simp [hD, hD2, hown, hreq]

/-- Witness for C1 at the creation row of the table: requiring a fresh name
on the empty registry creates it with the requested owner. -/
theorem C1_witness :
    alookup demoState0.field_name_map "pressure" = none ∧
    ∃ T, demoState0.require_field "pressure" FieldLocation.cell "state" 1 =
        .ok T ∧
      T.get_field_record? "pressure" =
        some (Field.create "pressure" FieldLocation.cell demoMesh "state" 1) ∧
      T.field_owner? "pressure" = some "state" :=
  ⟨rfl, (C1_require_field_arbitration demoState0 "pressure"
    FieldLocation.cell "state" 1).1 rfl⟩

/-- Claim C5: constant-value initialization is all-or-nothing per field, in
the global pass and in each block-scoped pass alike: a cell-located field
whose subfield-name count equals its dof count is assigned (every row of the
buffer, or every block row) and marked initialized exactly when a "Constant
<subfield name>" value exists for all of its subfield names; when any is
missing, the pass leaves the field — buffer and latch — untouched. -/
theorem C5_constant_init_all_or_nothing (entries : List (String × Rat))
    (mesh_block_id : Nat) (f : Field) (hc : f.location = FieldLocation.cell)
    (hl : f.subfield_names.length = f.num_dofs) :
    ((∀ n ∈ f.subfield_names,
        (alookup entries ("Constant " ++ n)).isSome) →
      ∃ u, gatherConstants entries f.subfield_names = some u ∧
        initFieldGlobal entries f = (f.set_data f.owner u).set_initialized ∧
        (initFieldGlobal entries f).initialized = true ∧
        (∀ row ∈ (initFieldGlobal entries f).data, row = u) ∧
        initFieldBlock entries mesh_block_id f =
          .ok ((f.set_data_block f.owner u mesh_block_id).set_initialized)) ∧
    ((∃ n ∈ f.subfield_names, alookup entries ("Constant " ++ n) = none) →
      initFieldGlobal entries f = f ∧
      initFieldBlock entries mesh_block_id f = .ok f) := by
  constructor
  · intro hall
    have hs := (gatherConstants_isSome entries f.subfield_names).2 hall
    obtain ⟨u, hu⟩ := Option.isSome_iff_exists.1 hs
    have hglob : initFieldGlobal entries f =
        (f.set_data f.owner u).set_initialized := by
      unfold initFieldGlobal
      simp [hc, hl, hu]
    refine ⟨u, hu, hglob, ?_, ?_, ?_⟩
    · rw [hglob]
      rfl
    · rw [hglob]
      intro row hrow
      have hmem : row ∈ f.data.map (fun _ => u) := by
        simpa [Field.set_data, Field.set_initialized] using hrow
      obtain ⟨a, ha, h2⟩ := List.mem_map.1 hmem
      exact h2.symm
    · unfold initFieldBlock
      simp [hc, hl, hu]
  · intro hmiss
    have hg : gatherConstants entries f.subfield_names = none := by
      cases hg2 : gatherConstants entries f.subfield_names with
      | none => rfl
      | some u =>
        obtain ⟨n, hn, hnone⟩ := hmiss
        have := (gatherConstants_isSome entries f.subfield_names).1
          (by simp [hg2]) n hn
        rw [hnone] at this
        simp at this
    constructor
    · unfold initFieldGlobal
      simp [hc, hl, hg]
    · unfold initFieldBlock
      simp [hc, hl, hg]

/-- Witness for C5: a one-dof cell field whose single subfield constant is
present is assigned everywhere and marked initialized. -/
theorem C5_witness :
    (∀ n ∈ demoTempField.subfield_names,
      (alookup demoEntries ("Constant " ++ n)).isSome) ∧
    ∃ u, gatherConstants demoEntries demoTempField.subfield_names = some u ∧
      initFieldGlobal demoEntries demoTempField =
        (demoTempField.set_data demoTempField.owner u).set_initialized ∧
      (initFieldGlobal demoEntries demoTempField).initialized = true ∧
      (∀ row ∈ (initFieldGlobal demoEntries demoTempField).data, row = u) ∧
      initFieldBlock demoEntries 2 demoTempField =
        .ok ((demoTempField.set_data_block demoTempField.owner u
          2).set_initialized) :=
  ⟨by decide, (C5_constant_init_all_or_nothing demoEntries 2 demoTempField
    (by decide) (by decide)).1 (by decide)⟩

/-- Claim C7: copy construction produces value-independent field data — at
the pointer level, the copied registry's field slots are freshly allocated
cells, so a `set_field` mutation through the original registry leaves every
field read through the copy unchanged, and vice versa. -/
theorem C7_copy_value_independence (h : FieldHeap) (A : StateRef)
    (hvalid : ∀ p ∈ A.field_ptrs, p < h.cells.length)
    (fieldname pk_name : String) (u : List Rat) (name2 : String) :
    getFieldRefData (setFieldRef (copyStateRef h A).1 A fieldname pk_name u)
        (copyStateRef h A).2 name2
      = getFieldRefData (copyStateRef h A).1 (copyStateRef h A).2 name2 ∧
    getFieldRefData
        (setFieldRef (copyStateRef h A).1 (copyStateRef h A).2
          fieldname pk_name u)
        A name2
      = getFieldRefData (copyStateRef h A).1 A name2 := by
  have hBp : ∀ j q, ((copyStateRef h A).2).field_ptrs.get? j = some q →
      h.cells.length ≤ q := by
    intro j q hq
    have hmem := List.get?_mem hq
    simp only [copyStateRef, List.mem_map, List.mem_range] at hmem
    obtain ⟨i2, hi2, hq2⟩ := hmem
    omega
  have hAp : ∀ j q, A.field_ptrs.get? j = some q → q < h.cells.length :=
    fun j q hq => hvalid q (List.get?_mem hq)
  constructor
  · unfold setFieldRef
    cases hp : (alookup A.field_name_map fieldname).bind
        (fun i => A.field_ptrs.get? i) with
    | none => rfl
    | some p =>
      have hplt : p < h.cells.length := by
        obtain ⟨i, hi, hq⟩ := Option.bind_eq_some.1 hp
        exact hAp i p hq
      unfold getFieldRefData
      cases hj : alookup ((copyStateRef h A).2).field_name_map name2 with
      | none => simp [hj]
      | some j =>
        cases hq : ((copyStateRef h A).2).field_ptrs.get? j with
        | none =>
          have hq2 : ((copyStateRef h A).2).field_ptrs[j]? = none := by
            rw [← List.get?_eq_getElem?]
            exact hq
          simp [hj, hq2]
        | some q =>
          have hqge := hBp j q hq
          have hne : p ≠ q := by omega
          have hq2 : ((copyStateRef h A).2).field_ptrs[j]? = some q := by
            rw [← List.get?_eq_getElem?]
            exact hq
          simp [hj, hq2, FieldHeap.write, FieldHeap.read,
            List.getElem?_set_ne hne]
  · unfold setFieldRef
    cases hp : (alookup ((copyStateRef h A).2).field_name_map fieldname).bind
        (fun i => ((copyStateRef h A).2).field_ptrs.get? i) with
    | none => rfl
    | some p =>
      have hpge : h.cells.length ≤ p := by
        obtain ⟨i, hi, hq⟩ := Option.bind_eq_some.1 hp
        exact hBp i p hq
      unfold getFieldRefData
      cases hj : alookup A.field_name_map name2 with
      | none => simp [hj]
      | some j =>
        cases hq : A.field_ptrs.get? j with
        | none =>
          have hq2 : A.field_ptrs[j]? = none := by
            rw [← List.get?_eq_getElem?]
            exact hq
          simp [hj, hq2]
        | some q =>
          have hqlt := hAp j q hq
          have hne : p ≠ q := by omega
          have hq2 : A.field_ptrs[j]? = some q := by
            rw [← List.get?_eq_getElem?]
            exact hq
          simp [hj, hq2, FieldHeap.write, FieldHeap.read,
            List.getElem?_set_ne hne]

/-- Witness for C7: a one-field registry with a valid pointer; mutating
"pressure" through the original does not change the copy's view, nor the
other way round. -/
theorem C7_witness :
    (∀ p ∈ demoRef.field_ptrs, p < demoHeap.cells.length) ∧
    (getFieldRefData
        (setFieldRef (copyStateRef demoHeap demoRef).1 demoRef
          "pressure" "flow_pk" [9])
        (copyStateRef demoHeap demoRef).2 "pressure"
      = getFieldRefData (copyStateRef demoHeap demoRef).1
          (copyStateRef demoHeap demoRef).2 "pressure" ∧
    getFieldRefData
        (setFieldRef (copyStateRef demoHeap demoRef).1
          (copyStateRef demoHeap demoRef).2 "pressure" "flow_pk" [9])
        demoRef "pressure"
      = getFieldRefData (copyStateRef demoHeap demoRef).1 demoRef
          "pressure") :=
  ⟨by decide, C7_copy_value_independence demoHeap demoRef (by decide)
    "pressure" "flow_pk" [9] "pressure"⟩

/-- Witness for C10: the PK "energy_pk" owns "temperature"; requiring it
again as "energy_pk" (even at a different location) is the double-ownership
error. -/
theorem C10_witness :
    demoState2.require_field "temperature" FieldLocation.face "energy_pk" 5 =
      .error ("Requested field " ++ "temperature" ++
        " already exists and is owned") :=
  C10_require_field_not_idempotent demoState2 "temperature"
    FieldLocation.face 5
    { Field.create "temperature" FieldLocation.cell demoMesh "energy_pk" 2 with owner := "energy_pk" }
    (by decide) (by decide)

/-- Claim C8: every registry operation — `require_field` (all arbitration
outcomes), copy construction, assignment (on its domain: matching schemas,
or the count-mismatch error which leaves the target untouched),
initialization and every setter — preserves the consistency invariant
between the name-to-index map and the field collection. -/
theorem C8_registry_ops_preserve_wf (S : State) (hWF : S.WF) :
    (∀ fieldname location owner num_dofs,
      (S.exceptRun (S.require_field fieldname location owner num_dofs)).WF) ∧
    S.copyCtor.WF ∧
    (∀ s : State, s.WF →
      (S.fields.map Field.fieldname = s.fields.map Field.fieldname ∨
        S.fields.length ≠ s.fields.length) →
      (S.exceptRun (State.assign S s)).WF) ∧
    (S.initialize_from_parameter_list).1.WF ∧
    (∀ fieldname pk_name u,
      (S.exceptRun (S.set_field fieldname pk_name u)).WF) ∧
    (∀ fieldname pk_name u mesh_block_id,
      (S.exceptRun
        (S.set_field_block fieldname pk_name u mesh_block_id)).WF) ∧
    (∀ fieldname pk_name u mesh_block_id,
      (S.exceptRun
        (S.set_vector_field fieldname pk_name u mesh_block_id)).WF) ∧
    (∀ fieldname pk_name rows,
      (S.exceptRun (S.set_field_pointer fieldname pk_name rows)).WF) ∧
    (∀ fieldname names,
      (S.exceptRun (S.set_subfield_names fieldname names)).WF) ∧
    (∀ wd, (S.set_density wd).WF) ∧
    (∀ mu, (S.set_viscosity mu).WF) ∧
    (∀ g, (S.set_gravity g).WF) := by
  refine ⟨?_, ?_, ?_, ?_, ?_, ?_, ?_, ?_, ?_, ?_, ?_, ?_⟩
  · intro fieldname location owner num_dofs
    exact require_field_wf S hWF fieldname location owner num_dofs
  · exact WF_congr S S.copyCtor rfl
      (mapNames_of_preserve (fun f => f) (fun f => rfl) S.fields) hWF
  · intro s hs hcase
    unfold State.assign
    by_cases hlen : S.fields.length = s.fields.length
    · have hnames : S.fields.map Field.fieldname =
          s.fields.map Field.fieldname := by
        rcases hcase with hc | hc
        · exact hc
        · exact absurd hlen hc
      rw [if_neg (by omega), exceptRun_ok]
      refine WF_congr s _ rfl ?_ hs
      rw [zipWith_assign_names S.fields s.fields hlen.symm]
      exact hnames
    · rw [if_pos hlen, exceptRun_error]
      exact hWF
  · unfold State.initialize_from_parameter_list
    cases hgx : alookup S.parameter_list.entries "Gravity x" with
    | none => exact hWF
    | some gx =>
      cases hgy : alookup S.parameter_list.entries "Gravity y" with
      | none => exact hWF
      | some gy =>
        cases hgz : alookup S.parameter_list.entries "Gravity z" with
        | none => exact hWF
        | some gz =>
          cases hd : alookup S.parameter_list.entries
              "Constant water density" with
          | none =>
            cases hv : alookup S.parameter_list.entries
                "Constant viscosity" with
            | none =>
              refine WF_congr S _ rfl ?_ hWF
              rw [blocksGo_names]
              exact mapNames_of_preserve _
                (initFieldGlobal_fieldname S.parameter_list.entries) _
            | some mu =>
              refine WF_congr S _ rfl ?_ hWF
              rw [blocksGo_names]
              exact mapNames_of_preserve _
                (initFieldGlobal_fieldname S.parameter_list.entries) _
          | some d =>
            cases hv : alookup S.parameter_list.entries
                "Constant viscosity" with
            | none =>
              refine WF_congr S _ rfl ?_ hWF
              rw [blocksGo_names]
              exact mapNames_of_preserve _
                (initFieldGlobal_fieldname S.parameter_list.entries) _
            | some mu =>
              refine WF_congr S _ rfl ?_ hWF
              rw [blocksGo_names]
              exact mapNames_of_preserve _
                (initFieldGlobal_fieldname S.parameter_list.entries) _
  · intro fieldname pk_name u
    exact update_record_wf S hWF fieldname
      (fun f => f.set_data pk_name u) (fun f => rfl)
  · intro fieldname pk_name u mesh_block_id
    exact update_record_wf S hWF fieldname
      (fun f => f.set_data_block pk_name u mesh_block_id) (fun f => rfl)
  · intro fieldname pk_name u mesh_block_id
    exact update_record_wf S hWF fieldname
      (fun f => f.set_vector_data pk_name u mesh_block_id) (fun f => rfl)
  · intro fieldname pk_name rows
    exact update_record_wf S hWF fieldname
      (fun f => { f with data := rows }) (fun f => rfl)
  · intro fieldname names
    exact update_record_wf S hWF fieldname
      (fun f => f.set_subfield_names names) (fun f => rfl)
  · intro wd
    exact WF_congr S _ rfl rfl hWF
  · intro mu
    exact WF_congr S _ rfl rfl hWF
  · intro g
    exact WF_congr S _ rfl rfl hWF

/-- Witness for C8: the two-field demo registry is well-formed and stays so
under copy construction. -/
theorem C8_witness : demoState2.WF ∧ demoState2.copyCtor.WF :=
  ⟨by decide, (C8_registry_ops_preserve_wf demoState2 (by decide)).2.1⟩

end ATS
